import Mathlib

/-
Verification of the auto-remediation Lambda (src/lambda/auto_remediation.py)
against its natural-language specification.

The Python module is shallowly embedded below.  External collaborators
(SSM parameter store, EC2 control plane, SNS) are modelled by an explicit
environment record `ExtEnv`; every function additionally returns the list
of external calls it performed, so that claims of the form "no describe
call is made" become statements about that trace.  Timestamps are modelled
as integer seconds since the epoch; a stored SSM parameter value is either
a well-formed ISO timestamp (with or without timezone information, the
`aware` flag) or an unparsable string, mirroring what
datetime.fromisoformat does with the stored value.
-/

namespace AutoRemediation

/-- A stored SSM parameter value, as seen by datetime.fromisoformat:
either an ISO timestamp carrying its UTC seconds and whether it had
timezone information, or an unparsable string (ValueError). -/
inductive TimeStr where
  | iso (secs : Int) (aware : Bool)
  | bad (s : String)
deriving DecidableEq

/-- Result of ec2.describe_instances for one instance id. -/
inductive DescribeResult where
  | found (state : String) (tags : List (String × String))
  | empty
  | notFound
  | otherError
deriving DecidableEq

/-- One external call performed by the engine (instrumentation trace). -/
inductive Call where
  | ssmGet (name : String)
  | ssmPut (name : String) (value : TimeStr)
  | describe (iid : String)
  | reboot (iid : String)
  | publish (arn : String) (subject : String) (body : String)
deriving DecidableEq

/-- The external world: SSM store contents, injected faults, EC2 responses,
reboot success, SNS configuration, the current UTC time in seconds, and the
module-level COOLDOWN_MINUTES value. -/
structure ExtEnv where
  ssm : String → Option TimeStr
  getFault : String → Bool
  putFault : String → Bool
  describeRes : String → DescribeResult
  rebootOk : String → Bool
  snsTopicArn : Option String
  now : Int
  cooldownMinutes : Int

/-- Python int() digit run after the first digit: digits with single
underscores allowed only between digits. -/
def parseDigits (acc : Nat) : List Char → Option Nat
  | [] => some acc
  | c :: rest =>
    if c.isDigit then parseDigits (10 * acc + (c.toNat - 48)) rest
    else if c = '_' then
      match rest with
      | [] => none
      | d :: rest2 =>
        if d.isDigit then parseDigits (10 * acc + (d.toNat - 48)) rest2 else none
    else none

/-- Python int() digit run: must start with a digit. -/
def pyIntDigits : List Char → Option Nat
  | [] => none
  | c :: rest => if c.isDigit then parseDigits (c.toNat - 48) rest else none

/-- Python int(str): strip whitespace, optional sign, digit run.
Raises ValueError (None) otherwise. -/
def pyInt (s : String) : Option Int :=
  let cs := ((s.toList.dropWhile Char.isWhitespace).reverse.dropWhile Char.isWhitespace).reverse
  match cs with
  | '+' :: rest => (pyIntDigits rest).map Int.ofNat
  | '-' :: rest => (pyIntDigits rest).map (fun n => -(Int.ofNat n : Int))
  | _ => (pyIntDigits cs).map Int.ofNat

/-- Module-level COOLDOWN_MINUTES: int(os.environ.get with default 15),
falling back to 15 on ValueError. -/
def computeCooldownMinutes : Option String → Int
  | none => 15
  | some s =>
    match pyInt s with
    | some n => n
    | none => 15

/-- SSM parameter name used for the cooldown marker of an instance. -/
def paramName (instance_id : String) : String :=
  "/auto-remediation/last-reboot/" ++ instance_id

/-- get_last_reboot_time: read the marker; a ParameterNotFound, a ValueError
on parsing, or a ClientError all yield None.  A timestamp without timezone
information is assumed UTC (warning) and returned. -/
def get_last_reboot_time (env : ExtEnv) (instance_id : String) :
    Option Int × List Call :=
  let name := paramName instance_id
  if env.getFault name then (none, [Call.ssmGet name])
  else
    match env.ssm name with
    | none => (none, [Call.ssmGet name])
    | some (TimeStr.iso secs _aware) => (some secs, [Call.ssmGet name])
    | some (TimeStr.bad _) => (none, [Call.ssmGet name])

/-- set_last_reboot_time: overwrite the marker with now (UTC, timezone-aware);
a ClientError on the put is logged and swallowed, leaving the store unchanged. -/
def set_last_reboot_time (env : ExtEnv) (instance_id : String) :
    ExtEnv × List Call :=
  let name := paramName instance_id
  let v := TimeStr.iso env.now true
  if env.putFault name then (env, [Call.ssmPut name v])
  else
    ({ env with ssm := fun k => if k = name then some v else env.ssm k },
     [Call.ssmPut name v])

/-- is_in_cooldown: absent or unreadable marker means not in cooldown;
otherwise in cooldown iff elapsed time is strictly below the window. -/
def is_in_cooldown (env : ExtEnv) (instance_id : String) : Bool × List Call :=
  let r := get_last_reboot_time env instance_id
  match r.1 with
  | none => (false, r.2)
  | some t => (decide (env.now - t < env.cooldownMinutes * 60), r.2)

/-- get_instance_info: ok none models the two return-None paths (empty
response or InvalidInstanceID.NotFound); error models the re-raised
ClientError. -/
def get_instance_info (env : ExtEnv) (instance_id : String) :
    Except String (Option (String × List (String × String))) × List Call :=
  match env.describeRes instance_id with
  | DescribeResult.found st tags => (Except.ok (some (st, tags)), [Call.describe instance_id])
  | DescribeResult.empty => (Except.ok none, [Call.describe instance_id])
  | DescribeResult.notFound => (Except.ok none, [Call.describe instance_id])
  | DescribeResult.otherError => (Except.error "ClientError", [Call.describe instance_id])

/-- reboot_instance: on success of the reboot call, record the marker
(best effort) and return True; on failure return False without touching
the marker. -/
def reboot_instance (env : ExtEnv) (instance_id : String) :
    Bool × ExtEnv × List Call :=
  if env.rebootOk instance_id then
    let p := set_last_reboot_time env instance_id
    (true, p.1, Call.reboot instance_id :: p.2)
  else
    (false, env, [Call.reboot instance_id])

/-- Python dict built from the tag list: later keys overwrite earlier ones,
so a lookup finds the last occurrence. -/
def tagsGet (tags : List (String × String)) (k dflt : String) : String :=
  match tags.reverse.find? (fun p => p.1 = k) with
  | some p => p.2
  | none => dflt

/-- send_notification: no-op when SNS_TOPIC_ARN is unset; otherwise one
publish with a subject truncated to 100 characters.  A publish ClientError
is logged and swallowed, so it never influences any result. -/
def send_notification (env : ExtEnv) (instance_id : String)
    (tags : List (String × String)) (alarm_name reason state_change_time : String)
    (success : Bool) : List Call :=
  match env.snsTopicArn with
  | none => []
  | some arn =>
    let status := if success then "Rebooted" else "Reboot FAILED"
    let subject := ("[Auto-Heal] " ++ instance_id ++ " " ++ status ++ " – " ++ alarm_name).take 100
    let body :=
      "Auto-healing action " ++ (if success then "succeeded" else "FAILED") ++ "\n\n" ++
      "• Instance:     " ++ instance_id ++ "\n" ++
      "• Name/Tag:     " ++ tagsGet tags "Name" "—" ++ "\n" ++
      "• Alarm:        " ++ alarm_name ++ "\n" ++
      "• Triggered by: " ++ reason ++ "\n" ++
      "• Time:         " ++ state_change_time ++ "\n\n" ++
      "Action: EC2 instance reboot " ++
      (if success then "initiated" else "failed — manual intervention required") ++ "\n" ++
      (if success then "Expected recovery: 2–5 minutes" else "")
    [Call.publish arn subject body]

/-- One alarm dimension dict: the four keys the parser probes, each of
which may be absent (or JSON null). -/
structure Dimension where
  nameLower : Option String
  nameCap : Option String
  valueLower : Option String
  valueCap : Option String
deriving DecidableEq

/-- dim.get of the name, lowercase key first, capitalised key as fallback. -/
def dimName (d : Dimension) : Option String :=
  match d.nameLower with
  | some n => some n
  | none => d.nameCap

/-- dim.get of the value, lowercase key first, capitalised key as fallback. -/
def dimValue (d : Dimension) : Option String :=
  match d.valueLower with
  | some v => some v
  | none => d.valueCap

/-- The loop over Trigger.Dimensions: first dimension named InstanceId wins
(break), yielding its value, which may itself be absent. -/
def scan_instance_id : List Dimension → Option String
  | [] => none
  | d :: rest =>
    if dimName d = some "InstanceId" then dimValue d
    else scan_instance_id rest

/-- The parsed inner CloudWatch alarm message; absent keys are none. -/
structure AlarmMessage where
  alarmName : Option String
  newStateValue : Option String
  newStateReason : Option String
  stateChangeTime : Option String
  dims : List Dimension
deriving DecidableEq

/-- One SNS record as process_record sees it: either its inner message
fails to parse (KeyError / JSONDecodeError) or it is a parsed message. -/
inductive RecordInput where
  | malformed
  | msg (m : AlarmMessage)
deriving DecidableEq

/-- The per-record return value of the Python code. -/
structure Outcome where
  statusCode : Nat
  body : String
deriving DecidableEq

/-- How an f-string renders an optional value (None prints as None). -/
def optDisplay : Option String → String
  | some s => s
  | none => "None"

/-- Body of the success return, json.dumps of the two-field dict. -/
def actedBody (instance_id alarm_name : String) : String :=
  "\x7b\"message\": \"Reboot initiated for instance " ++ instance_id ++
    "\", \"alarm\": \"" ++ alarm_name ++ "\"\x7d"

/-- Result of one process_record run: the outcome or an escaped exception,
the resulting external world, and the calls performed. -/
structure StepResult where
  out : Except String Outcome
  env : ExtEnv
  calls : List Call

/-- process_record: parse, extract the instance id, then the decision
sequence (state gate, cooldown gate, lookup, running gate, reboot and
notify). -/
def process_record (env : ExtEnv) (r : RecordInput) : StepResult :=
  match r with
  | RecordInput.malformed =>
    ⟨Except.ok ⟨400, "Invalid SNS message format"⟩, env, []⟩
  | RecordInput.msg m =>
    let alarm_name := m.alarmName.getD "Unknown"
    let new_state := m.newStateValue
    let reason := m.newStateReason.getD "No reason provided"
    let state_change_time := m.stateChangeTime.getD "Unknown"
    match scan_instance_id m.dims with
    | none => ⟨Except.ok ⟨400, "No InstanceId found in alarm"⟩, env, []⟩
    | some instance_id =>
      if instance_id = "" then
        ⟨Except.ok ⟨400, "No InstanceId found in alarm"⟩, env, []⟩
      else if new_state ≠ some "ALARM" then
        ⟨Except.ok ⟨200, "Skipped - state is " ++ optDisplay new_state⟩, env, []⟩
      else
        let cool := is_in_cooldown env instance_id
        if cool.1 then
          ⟨Except.ok ⟨200, "Skipped - cooldown period active"⟩, env, cool.2⟩
        else
          let info := get_instance_info env instance_id
          match info.1 with
          | Except.error e => ⟨Except.error e, env, cool.2 ++ info.2⟩
          | Except.ok none =>
            ⟨Except.ok ⟨404, "Instance not found"⟩, env, cool.2 ++ info.2⟩
          | Except.ok (some (st, tags)) =>
            if st ≠ "running" then
              ⟨Except.ok ⟨200, "Skipped - instance is " ++ st⟩, env, cool.2 ++ info.2⟩
            else
              let rb := reboot_instance env instance_id
              let notif := send_notification rb.2.1 instance_id tags alarm_name
                reason state_change_time rb.1
              if rb.1 then
                ⟨Except.ok ⟨200, actedBody instance_id alarm_name⟩, rb.2.1,
                  cool.2 ++ info.2 ++ rb.2.2 ++ notif⟩
              else
                ⟨Except.ok ⟨500, "Reboot failed"⟩, rb.2.1,
                  cool.2 ++ info.2 ++ rb.2.2 ++ notif⟩

/-- The try/except around process_record in the batch loop: an escaped
exception becomes a 500 outcome for that record only. -/
def processTop (env : ExtEnv) (r : RecordInput) : Outcome × ExtEnv :=
  match process_record env r with
  | ⟨Except.ok o, env2, _⟩ => (o, env2)
  | ⟨Except.error e, env2, _⟩ => (⟨500, e⟩, env2)

/-- The loop of lambda_handler: process every record in order, threading
the external world, collecting one outcome per record. -/
def runRecords (env : ExtEnv) : List RecordInput → List Outcome × ExtEnv
  | [] => ([], env)
  | r :: rest =>
    let p := processTop env r
    let q := runRecords p.2 rest
    (p.1 :: q.1, q.2)

/-- Body of the aggregate handler result: either the early-return message
string or the serialized list of per-record outcomes. -/
inductive HandlerBody where
  | msg (s : String)
  | results (os : List Outcome)
deriving DecidableEq

/-- The aggregate handler return value. -/
structure HandlerResult where
  statusCode : Nat
  body : HandlerBody
deriving DecidableEq

/-- lambda_handler: 400 when Records is absent or empty; otherwise process
every record independently and aggregate 200 only when all outcomes are 200. -/
def lambda_handler (env : ExtEnv) (event : Option (List RecordInput)) :
    HandlerResult :=
  match event with
  | none => ⟨400, HandlerBody.msg "No SNS records found"⟩
  | some rs =>
    if rs = [] then ⟨400, HandlerBody.msg "No SNS records found"⟩
    else
      let os := (runRecords env rs).1
      ⟨if os.all (fun o => o.statusCode == 200) then 200 else 500,
        HandlerBody.results os⟩

/-- Projection of a call to the key of a marker put, when it is one. -/
def putKey : Call → Option String
  | Call.ssmPut n _ => some n
  | _ => none

/- Concrete fixtures used by witnesses and counterexamples. -/

/-- A dimension list using the lowercase key variant for instance i-abc. -/
def demoDims : List Dimension := [⟨some "InstanceId", none, some "i-abc", none⟩]

/-- A fully populated ALARM message for instance i-abc. -/
def demoMsg : AlarmMessage :=
  ⟨some "cpu-high", some "ALARM", some "threshold breached",
    some "2024-01-01T00:00:00+00:00", demoDims⟩

/-- The same message with newStateValue OK. -/
def demoMsgOk : AlarmMessage := { demoMsg with newStateValue := some "OK" }

/-- A healthy world: empty marker store, no faults, instance running,
reboot succeeds, SNS configured, cooldown 15 minutes. -/
def demoEnv : ExtEnv where
  ssm := fun _ => none
  getFault := fun _ => false
  putFault := fun _ => false
  describeRes := fun _ => DescribeResult.found "running" [("Name", "web-1")]
  rebootOk := fun _ => true
  snsTopicArn := some "arn-demo"
  now := 1000000
  cooldownMinutes := 15

/-- demoEnv with a fresh, timezone-aware marker for i-abc (500 s elapsed,
window 900 s). -/
def coolEnv : ExtEnv :=
  { demoEnv with
    ssm := fun k => if k = paramName "i-abc" then some (TimeStr.iso 999500 true) else none }

/-- demoEnv with a timezone-naive marker for i-abc written at the current
instant. -/
def naiveEnv : ExtEnv :=
  { demoEnv with
    ssm := fun k => if k = paramName "i-abc" then some (TimeStr.iso 1000000 false) else none }

/-- demoEnv with an unparsable marker value for i-abc. -/
def badTsEnv : ExtEnv :=
  { demoEnv with
    ssm := fun k => if k = paramName "i-abc" then some (TimeStr.bad "garbage") else none }

/-- demoEnv where every marker put fails with a ClientError. -/
def putFailEnv : ExtEnv := { demoEnv with putFault := fun _ => true }

/-- demoEnv where the reboot call fails. -/
def rebootFailEnv : ExtEnv := { demoEnv with rebootOk := fun _ => false }

/-- demoEnv where describe raises an unclassified ClientError. -/
def excEnv : ExtEnv := { demoEnv with describeRes := fun _ => DescribeResult.otherError }

/-- Claim C1: a successfully parsed notification whose newState is not
ALARM yields the skip outcome with statusCode 200, leaves the world
untouched and performs no external call at all - in particular no reboot -
whatever the cooldown or resource state in the environment. -/
theorem claim1_not_alarm_skips (env : ExtEnv) (m : AlarmMessage) (iid : String)
    (hscan : scan_instance_id m.dims = some iid) (hiid : iid ≠ "")
    (hstate : m.newStateValue ≠ some "ALARM") :
    process_record env (RecordInput.msg m) =
      ⟨Except.ok ⟨200, "Skipped - state is " ++ optDisplay m.newStateValue⟩, env, []⟩ := by
  simp [process_record, hscan, hiid, hstate]

/-- Witness for C1 at a concrete OK-state message against a world that
would otherwise reboot. -/
theorem claim1_witness :
    scan_instance_id demoMsgOk.dims = some "i-abc" ∧
    process_record demoEnv (RecordInput.msg demoMsgOk) =
      ⟨Except.ok ⟨200, "Skipped - state is " ++ optDisplay demoMsgOk.newStateValue⟩,
        demoEnv, []⟩ :=
  ⟨by decide, claim1_not_alarm_skips demoEnv demoMsgOk "i-abc" (by decide)
    (by decide) (by decide)⟩

/-- Claim C2: with a readable marker holding a valid timestamp whose
elapsed time is strictly below the cooldown window, the outcome is the
cooldown skip with statusCode 200, the world is unchanged, and the only
external call is the marker read - in particular describe is never
called. -/
theorem claim2_cooldown_skips (env : ExtEnv) (m : AlarmMessage) (iid : String)
    (secs : Int) (aware : Bool)
    (hscan : scan_instance_id m.dims = some iid) (hiid : iid ≠ "")
    (hstate : m.newStateValue = some "ALARM")
    (hget : env.getFault (paramName iid) = false)
    (hmark : env.ssm (paramName iid) = some (TimeStr.iso secs aware))
    (hfresh : env.now - secs < env.cooldownMinutes * 60) :
    process_record env (RecordInput.msg m) =
      ⟨Except.ok ⟨200, "Skipped - cooldown period active"⟩, env,
        [Call.ssmGet (paramName iid)]⟩ ∧
    Call.describe iid ∉ (process_record env (RecordInput.msg m)).calls := by
  have hrun : process_record env (RecordInput.msg m) =
      ⟨Except.ok ⟨200, "Skipped - cooldown period active"⟩, env,
        [Call.ssmGet (paramName iid)]⟩ := by
    simp [process_record, hscan, hiid, hstate, is_in_cooldown,
      get_last_reboot_time, hget, hmark, hfresh]
  refine ⟨hrun, ?_⟩
  rw [hrun]
  simp

/-- Witness for C2: marker 500 seconds old against a 900 second window. -/
theorem claim2_witness :
    coolEnv.ssm (paramName "i-abc") = some (TimeStr.iso 999500 true) ∧
    coolEnv.now - 999500 < coolEnv.cooldownMinutes * 60 ∧
    process_record coolEnv (RecordInput.msg demoMsg) =
      ⟨Except.ok ⟨200, "Skipped - cooldown period active"⟩, coolEnv,
        [Call.ssmGet (paramName "i-abc")]⟩ ∧
    Call.describe "i-abc" ∉ (process_record coolEnv (RecordInput.msg demoMsg)).calls := by
  have h := claim2_cooldown_skips coolEnv demoMsg "i-abc" 999500 true
    (by decide) (by decide) (by decide) (by decide) (by decide) (by decide)
  exact ⟨by decide, by decide, h.1, h.2⟩

/-- Claim C8: both field-casing variants of a dimension extract the same
resource identifier, and in general the first dimension whose resolved
name is InstanceId wins the scan. -/
theorem claim8_casing (d : Dimension) (ds : List Dimension)
    (hd : dimName d = some "InstanceId") :
    scan_instance_id [⟨some "InstanceId", none, some "r-1", none⟩] = some "r-1" ∧
    scan_instance_id [⟨none, some "InstanceId", none, some "r-1"⟩] = some "r-1" ∧
    scan_instance_id (d :: ds) = dimValue d := by
  refine ⟨by decide, by decide, ?_⟩
  simp [scan_instance_id, hd]

/-- Witness for C8: first-match-wins at a concrete two-element list where
the second dimension would extract a different value. -/
theorem claim8_witness :
    dimName ⟨some "InstanceId", none, some "r-1", none⟩ = some "InstanceId" ∧
    scan_instance_id [⟨some "InstanceId", none, some "r-1", none⟩] = some "r-1" ∧
    scan_instance_id [⟨none, some "InstanceId", none, some "r-1"⟩] = some "r-1" ∧
    scan_instance_id
        [⟨some "InstanceId", none, some "r-1", none⟩,
          ⟨some "InstanceId", none, some "r-2", none⟩] =
      dimValue ⟨some "InstanceId", none, some "r-1", none⟩ := by
  have h := claim8_casing ⟨some "InstanceId", none, some "r-1", none⟩
    [⟨some "InstanceId", none, some "r-2", none⟩] (by decide)
  exact ⟨by decide, h.1, h.2.1, h.2.2⟩

/-- The marker read always performs exactly one get, on the fixed key. -/
theorem get_last_calls (env : ExtEnv) (iid : String) :
    (get_last_reboot_time env iid).2 = [Call.ssmGet (paramName iid)] := by
  cases hgf : env.getFault (paramName iid)
  · rcases hv : env.ssm (paramName iid) with _ | (⟨secs, aware⟩ | s) <;>
      simp [get_last_reboot_time, hgf, hv]
  · simp [get_last_reboot_time, hgf]

/-- The cooldown check performs exactly the marker read. -/
theorem is_in_cooldown_calls (env : ExtEnv) (iid : String) :
    (is_in_cooldown env iid).2 = [Call.ssmGet (paramName iid)] := by
  cases h : (get_last_reboot_time env iid).1 <;>
    simp [is_in_cooldown, h, get_last_calls]

/-- A notification dispatch never touches the marker store. -/
theorem send_notification_no_put (env : ExtEnv) (iid : String)
    (tags : List (String × String)) (a r t : String) (s : Bool) :
    (send_notification env iid tags a r t s).filterMap putKey = [] := by
  unfold send_notification
  cases env.snsTopicArn <;> simp [putKey]

/-- Counterexample to C4: in the concrete successful remediation of
i-abc, the only marker put uses the key /auto-remediation/last-reboot/i-abc
and no put ever targets remediation/last-action/i-abc. -/
theorem claim4_counterexample :
    (process_record demoEnv (RecordInput.msg demoMsg)).out =
      Except.ok ⟨200, actedBody "i-abc" "cpu-high"⟩ ∧
    ((process_record demoEnv (RecordInput.msg demoMsg)).calls.filterMap putKey) =
      ["/auto-remediation/last-reboot/i-abc"] ∧
    "remediation/last-action/i-abc" ∉
      ((process_record demoEnv (RecordInput.msg demoMsg)).calls.filterMap putKey) :=
  ⟨rfl, rfl, by decide⟩

/-- Amended C4: marker reads and writes share the fixed key convention
/auto-remediation/last-reboot/ followed by the resource id; after a
successful reboot, a put on that key is in the call trace. -/
theorem claim4_marker_key_amended (env : ExtEnv) (iid : String)
    (hre : env.rebootOk iid = true) :
    paramName iid = "/auto-remediation/last-reboot/" ++ iid ∧
    (get_last_reboot_time env iid).2 = [Call.ssmGet (paramName iid)] ∧
    Call.ssmPut (paramName iid) (TimeStr.iso env.now true) ∈
      (reboot_instance env iid).2.2 := by
  refine ⟨rfl, get_last_calls env iid, ?_⟩
  cases hp : env.putFault (paramName iid) <;>
    simp [reboot_instance, hre, set_last_reboot_time, hp]

/-- Witness for the amended C4 at the demo world. -/
theorem claim4_witness :
    demoEnv.rebootOk "i-abc" = true ∧
    (paramName "i-abc" = "/auto-remediation/last-reboot/" ++ "i-abc" ∧
      (get_last_reboot_time demoEnv "i-abc").2 = [Call.ssmGet (paramName "i-abc")] ∧
      Call.ssmPut (paramName "i-abc") (TimeStr.iso demoEnv.now true) ∈
        (reboot_instance demoEnv "i-abc").2.2) :=
  ⟨by decide, claim4_marker_key_amended demoEnv "i-abc" (by decide)⟩

/-- Counterexample to C5: a timezone-ambiguous (naive) marker written at
the current instant is not treated as absent - the cooldown check returns
true, blocking remediation, where the claim requires false. -/
theorem claim5_counterexample :
    naiveEnv.ssm (paramName "i-abc") = some (TimeStr.iso 1000000 false) ∧
    (is_in_cooldown naiveEnv "i-abc").1 = true := by
  decide

/-- Amended C5: an unparsable marker timestamp is treated as absent and
never blocks remediation, while a timezone-naive timestamp is assumed UTC
and used normally by the cooldown comparison. -/
theorem claim5_corrupt_marker_amended (env1 env2 : ExtEnv) (iid s : String)
    (secs : Int)
    (h1 : env1.getFault (paramName iid) = false)
    (h2 : env1.ssm (paramName iid) = some (TimeStr.bad s))
    (h3 : env2.getFault (paramName iid) = false)
    (h4 : env2.ssm (paramName iid) = some (TimeStr.iso secs false)) :
    (get_last_reboot_time env1 iid).1 = none ∧
    (is_in_cooldown env1 iid).1 = false ∧
    (get_last_reboot_time env2 iid).1 = some secs := by
  refine ⟨?_, ?_, ?_⟩ <;>
    simp [is_in_cooldown, get_last_reboot_time, h1, h2, h3, h4]

/-- Witness for the amended C5: a garbage marker value and a naive one. -/
theorem claim5_witness :
    badTsEnv.ssm (paramName "i-abc") = some (TimeStr.bad "garbage") ∧
    naiveEnv.ssm (paramName "i-abc") = some (TimeStr.iso 1000000 false) ∧
    ((get_last_reboot_time badTsEnv "i-abc").1 = none ∧
      (is_in_cooldown badTsEnv "i-abc").1 = false ∧
      (get_last_reboot_time naiveEnv "i-abc").1 = some 1000000) :=
  ⟨by decide, by decide,
    claim5_corrupt_marker_amended badTsEnv naiveEnv "i-abc" "garbage" 1000000
      (by decide) (by decide) (by decide) (by decide)⟩

/-- Counterexample to C9: the string -5 is not an integer greater than or
equal to zero, yet the configured value becomes -5, not the 15 minute
default. -/
theorem claim9_counterexample :
    pyInt "-5" = some (-5) ∧
    computeCooldownMinutes (some "-5") = -5 ∧ (-5 : Int) ≠ 15 := by
  decide

/-- Amended C9: the engine falls back to the 15 minute default exactly
when the configured value is absent or fails integer parsing; any string
that parses as an integer - including a negative one - is used as-is. -/
theorem claim9_default_amended (s t : String) (n : Int)
    (hs : pyInt s = none) (ht : pyInt t = some n) :
    computeCooldownMinutes none = 15 ∧
    computeCooldownMinutes (some s) = 15 ∧
    computeCooldownMinutes (some t) = n := by
  simp [computeCooldownMinutes, hs, ht]

/-- Witness for the amended C9: a non-numeric string and a negative one. -/
theorem claim9_witness :
    pyInt "not-a-number" = none ∧ pyInt "-5" = some (-5) ∧
    (computeCooldownMinutes none = 15 ∧
      computeCooldownMinutes (some "not-a-number") = 15 ∧
      computeCooldownMinutes (some "-5") = -5) :=
  ⟨by decide, by decide,
    claim9_default_amended "not-a-number" "-5" (-5) (by decide) (by decide)⟩

/-- Claim C6: when the reboot succeeds but the marker put fails with a
store fault, the failure is swallowed: the outcome is still the success
outcome with statusCode 200, the store is unchanged, and the put was
attempted. -/
theorem claim6_put_failure_acted (env : ExtEnv) (m : AlarmMessage)
    (iid : String) (tags : List (String × String))
    (hscan : scan_instance_id m.dims = some iid) (hiid : iid ≠ "")
    (hstate : m.newStateValue = some "ALARM")
    (hcool : (is_in_cooldown env iid).1 = false)
    (hdesc : env.describeRes iid = DescribeResult.found "running" tags)
    (hre : env.rebootOk iid = true)
    (hput : env.putFault (paramName iid) = true) :
    (process_record env (RecordInput.msg m)).out =
      Except.ok ⟨200, actedBody iid (m.alarmName.getD "Unknown")⟩ ∧
    (process_record env (RecordInput.msg m)).env = env ∧
    Call.ssmPut (paramName iid) (TimeStr.iso env.now true) ∈
      (process_record env (RecordInput.msg m)).calls := by
  refine ⟨?_, ?_, ?_⟩ <;>
    simp [process_record, hscan, hiid, hstate, hcool, get_instance_info, hdesc,
      reboot_instance, hre, set_last_reboot_time, hput]

/-- Witness for C6: the demo run where every put faults. -/
theorem claim6_witness :
    putFailEnv.putFault (paramName "i-abc") = true ∧
    putFailEnv.rebootOk "i-abc" = true ∧
    ((process_record putFailEnv (RecordInput.msg demoMsg)).out =
        Except.ok ⟨200, actedBody "i-abc" (demoMsg.alarmName.getD "Unknown")⟩ ∧
      (process_record putFailEnv (RecordInput.msg demoMsg)).env = putFailEnv ∧
      Call.ssmPut (paramName "i-abc") (TimeStr.iso putFailEnv.now true) ∈
        (process_record putFailEnv (RecordInput.msg demoMsg)).calls) :=
  ⟨by decide, by decide,
    claim6_put_failure_acted putFailEnv demoMsg "i-abc" [("Name", "web-1")]
      (by decide) (by decide) (by decide) (by decide) (by decide) (by decide)
      (by decide)⟩

/-- Claim C10: when the reboot call fails, the outcome is the 500 failure,
the marker store is left untouched and no marker put appears anywhere in
the call trace, so the resource stays immediately eligible. -/
theorem claim10_no_marker_on_failure (env : ExtEnv) (m : AlarmMessage)
    (iid : String) (tags : List (String × String))
    (hscan : scan_instance_id m.dims = some iid) (hiid : iid ≠ "")
    (hstate : m.newStateValue = some "ALARM")
    (hcool : (is_in_cooldown env iid).1 = false)
    (hdesc : env.describeRes iid = DescribeResult.found "running" tags)
    (hre : env.rebootOk iid = false) :
    (process_record env (RecordInput.msg m)).out =
      Except.ok ⟨500, "Reboot failed"⟩ ∧
    (process_record env (RecordInput.msg m)).env = env ∧
    (process_record env (RecordInput.msg m)).calls.filterMap putKey = [] := by
  refine ⟨?_, ?_, ?_⟩ <;>
    simp [process_record, hscan, hiid, hstate, hcool, get_instance_info, hdesc,
      reboot_instance, hre, is_in_cooldown_calls, send_notification_no_put,
      putKey]

/-- Witness for C10: the demo run where the reboot call fails. -/
theorem claim10_witness :
    rebootFailEnv.rebootOk "i-abc" = false ∧
    ((process_record rebootFailEnv (RecordInput.msg demoMsg)).out =
        Except.ok ⟨500, "Reboot failed"⟩ ∧
      (process_record rebootFailEnv (RecordInput.msg demoMsg)).env = rebootFailEnv ∧
      (process_record rebootFailEnv (RecordInput.msg demoMsg)).calls.filterMap putKey
        = []) :=
  ⟨by decide,
    claim10_no_marker_on_failure rebootFailEnv demoMsg "i-abc" [("Name", "web-1")]
      (by decide) (by decide) (by decide) (by decide) (by decide) (by decide)⟩

/-- Claim C7: processing the same ALARM notification twice in immediate
succession - the second run against the world produced by the first -
yields the success outcome first and the cooldown skip second, given the
first reboot and marker write succeed and the cooldown window is
positive. -/
theorem claim7_idempotence (env : ExtEnv) (m : AlarmMessage) (iid : String)
    (tags : List (String × String))
    (hscan : scan_instance_id m.dims = some iid) (hiid : iid ≠ "")
    (hstate : m.newStateValue = some "ALARM")
    (hget : env.getFault (paramName iid) = false)
    (hcool : (is_in_cooldown env iid).1 = false)
    (hdesc : env.describeRes iid = DescribeResult.found "running" tags)
    (hre : env.rebootOk iid = true)
    (hput : env.putFault (paramName iid) = false)
    (hpos : 0 < env.cooldownMinutes) :
    (process_record env (RecordInput.msg m)).out =
      Except.ok ⟨200, actedBody iid (m.alarmName.getD "Unknown")⟩ ∧
    (process_record (process_record env (RecordInput.msg m)).env
        (RecordInput.msg m)).out =
      Except.ok ⟨200, "Skipped - cooldown period active"⟩ := by
  have henv : (process_record env (RecordInput.msg m)).env =
      { env with ssm := fun k =>
          if k = paramName iid then some (TimeStr.iso env.now true)
          else env.ssm k } := by
    simp [process_record, hscan, hiid, hstate, hcool, get_instance_info, hdesc,
      reboot_instance, hre, set_last_reboot_time, hput]
  constructor
  · simp [process_record, hscan, hiid, hstate, hcool, get_instance_info, hdesc,
      reboot_instance, hre, set_last_reboot_time, hput]
  · rw [henv]
    have hc2 : (is_in_cooldown
        { env with ssm := fun k =>
            if k = paramName iid then some (TimeStr.iso env.now true)
            else env.ssm k } iid).1 = true := by
      simp [is_in_cooldown, get_last_reboot_time, hget]
      omega
    simp [process_record, hscan, hiid, hstate, hc2]

/-- Witness for C7: the demo world; the second run sees the marker the
first run wrote at the same instant, inside the 15 minute window. -/
theorem claim7_witness :
    (is_in_cooldown demoEnv "i-abc").1 = false ∧
    0 < demoEnv.cooldownMinutes ∧
    ((process_record demoEnv (RecordInput.msg demoMsg)).out =
        Except.ok ⟨200, actedBody "i-abc" (demoMsg.alarmName.getD "Unknown")⟩ ∧
      (process_record (process_record demoEnv (RecordInput.msg demoMsg)).env
          (RecordInput.msg demoMsg)).out =
        Except.ok ⟨200, "Skipped - cooldown period active"⟩) :=
  ⟨by decide, by decide,
    claim7_idempotence demoEnv demoMsg "i-abc" [("Name", "web-1")]
      (by decide) (by decide) (by decide) (by decide) (by decide) (by decide)
      (by decide) (by decide) (by decide)⟩

/-- The batch loop produces exactly one outcome per input record. -/
theorem runRecords_length (env : ExtEnv) (rs : List RecordInput) :
    ((runRecords env rs).1).length = rs.length := by
  induction rs generalizing env with
  | nil => rfl
  | cons r rest ih => simp [runRecords, ih]

/-- A malformed record at position k yields the 400 outcome at position k. -/
theorem runRecords_get_malformed (env : ExtEnv) (rs : List RecordInput)
    (k : Nat) (hm : rs[k]? = some RecordInput.malformed) :
    (runRecords env rs).1[k]? =
      some ⟨400, "Invalid SNS message format"⟩ := by
  induction rs generalizing env k with
  | nil => simp at hm
  | cons r rest ih =>
    cases k with
    | zero =>
      simp at hm
      subst hm
      simp [runRecords, processTop, process_record]
    | succ k =>
      simp at hm
      simp [runRecords, ih _ _ hm]

/-- Deleting a malformed record from the batch deletes exactly its own
outcome: every sibling outcome is unchanged. -/
theorem runRecords_erase (env : ExtEnv) (rs : List RecordInput) (k : Nat)
    (hm : rs[k]? = some RecordInput.malformed) :
    ((runRecords env rs).1).eraseIdx k =
      (runRecords env (rs.eraseIdx k)).1 := by
  induction rs generalizing env k with
  | nil => simp at hm
  | cons r rest ih =>
    cases k with
    | zero =>
      simp at hm
      subst hm
      simp [runRecords, processTop, process_record, List.eraseIdx]
    | succ k =>
      simp at hm
      simp [runRecords, List.eraseIdx, ih _ _ hm]

/-- Claim C3: with a malformed record at position k, the handler still
produces one outcome per record, position k carries the 400 outcome,
removing the malformed record leaves every sibling outcome unchanged, the
aggregate statusCode is 500, the aggregate is 200 exactly when every
outcome is 200, and any record whose processing escapes with an exception
is downgraded to a 500 outcome for that record only, keeping its world. -/
theorem claim3_batch_isolated (env : ExtEnv) (rs : List RecordInput) (k : Nat)
    (env2 : ExtEnv) (r2 : RecordInput) (e : String)
    (hm : rs[k]? = some RecordInput.malformed)
    (hexc : (process_record env2 r2).out = Except.error e) :
    ((runRecords env rs).1).length = rs.length ∧
    (runRecords env rs).1[k]? = some ⟨400, "Invalid SNS message format"⟩ ∧
    ((runRecords env rs).1).eraseIdx k = (runRecords env (rs.eraseIdx k)).1 ∧
    (lambda_handler env (some rs)).statusCode = 500 ∧
    ((lambda_handler env (some rs)).statusCode = 200 ↔
      ((runRecords env rs).1).all (fun o => o.statusCode == 200) = true) ∧
    processTop env2 r2 = (⟨500, e⟩, (process_record env2 r2).env) := by
  have hne : rs ≠ [] := by
    intro h
    subst h
    simp at hm
  have hmem : (⟨400, "Invalid SNS message format"⟩ : Outcome) ∈
      (runRecords env rs).1 :=
    List.getElem?_mem (runRecords_get_malformed env rs k hm)
  have hall : ((runRecords env rs).1).all (fun o => o.statusCode == 200)
      = false := by
    cases hb : ((runRecords env rs).1).all (fun o => o.statusCode == 200)
    · rfl
    · exfalso
      have := List.all_eq_true.mp hb _ hmem
      simp at this
  have hsc : (lambda_handler env (some rs)).statusCode = 500 := by
    simp [lambda_handler, hne, hall]
  have hTop : processTop env2 r2 = (⟨500, e⟩, (process_record env2 r2).env) := by
    cases hpr : process_record env2 r2 with
    | mk o en cs =>
      rw [hpr] at hexc
      simp only at hexc
      subst hexc
      simp [processTop, hpr]
  exact ⟨runRecords_length env rs, runRecords_get_malformed env rs k hm,
    runRecords_erase env rs k hm, hsc, by simp [hsc, hall], hTop⟩

/-- Witness for C3: a two-record batch whose first record is malformed,
and a record whose describe raises an unclassified error. -/
theorem claim3_witness :
    ([RecordInput.malformed, RecordInput.msg demoMsg][0]? =
      some RecordInput.malformed) ∧
    (process_record excEnv (RecordInput.msg demoMsg)).out =
      Except.error "ClientError" ∧
    (((runRecords demoEnv [RecordInput.malformed, RecordInput.msg demoMsg]).1).length
        = [RecordInput.malformed, RecordInput.msg demoMsg].length ∧
      (runRecords demoEnv [RecordInput.malformed, RecordInput.msg demoMsg]).1[0]?
        = some ⟨400, "Invalid SNS message format"⟩ ∧
      ((runRecords demoEnv [RecordInput.malformed, RecordInput.msg demoMsg]).1).eraseIdx 0
        = (runRecords demoEnv
            ([RecordInput.malformed, RecordInput.msg demoMsg].eraseIdx 0)).1 ∧
      (lambda_handler demoEnv
          (some [RecordInput.malformed, RecordInput.msg demoMsg])).statusCode = 500 ∧
      ((lambda_handler demoEnv
            (some [RecordInput.malformed, RecordInput.msg demoMsg])).statusCode = 200 ↔
        ((runRecords demoEnv
            [RecordInput.malformed, RecordInput.msg demoMsg]).1).all
              (fun o => o.statusCode == 200) = true) ∧
      processTop excEnv (RecordInput.msg demoMsg) =
        (⟨500, "ClientError"⟩,
          (process_record excEnv (RecordInput.msg demoMsg)).env)) :=
  ⟨by decide, rfl,
    claim3_batch_isolated demoEnv [RecordInput.malformed, RecordInput.msg demoMsg]
      0 excEnv (RecordInput.msg demoMsg) "ClientError" (by decide) rfl⟩

end AutoRemediation
